import Mathlib

/-!
Shallow embedding of the validation-and-query-construction core of the
supabase-mcp repository (`src/supabase_mcp/utils.py`, `database.py`,
`constants.py`, `exceptions.py`).

Loosely typed Python values are modelled by `PyVal`; Python exceptions by
`Except MCPError`; the external store client's chainable query builder by
the `Query` record, and its terminal `execute()` by a `Store` function from
the built query to either a response or a raised error message.  Each
database operation returns, next to its Python result, the list of queries
it actually executed, so that "no network call was issued" is the trace
being empty.
-/

/-- Dynamic Python values as they occur in this codebase: `None`, booleans,
integers, strings, lists, and string-keyed dictionaries (modelled as
association lists in insertion order, which is Python's dict iteration
order). -/
inductive PyVal where
  | none : PyVal
  | bool (b : Bool) : PyVal
  | int (n : Int) : PyVal
  | str (s : String) : PyVal
  | list (xs : List PyVal) : PyVal
  | dict (entries : List (String × PyVal)) : PyVal

/-- Python truthiness (`bool(v)`): `None` and `False` are falsy, numbers are
truthy iff nonzero, strings/lists/dicts are truthy iff non-empty. -/
def PyVal.truthy : PyVal → Bool
  | PyVal.none => false
  | PyVal.bool b => b
  | PyVal.int n => n != 0
  | PyVal.str s => s != ""
  | PyVal.list xs => !xs.isEmpty
  | PyVal.dict entries => !entries.isEmpty

/-- `isinstance(v, str)`. -/
def PyVal.isStr : PyVal → Bool
  | PyVal.str _ => true
  | _ => false

/-- `isinstance(v, int)`; in Python `bool` is a subclass of `int`, so
booleans count as integers. -/
def PyVal.isInt : PyVal → Bool
  | PyVal.int _ => true
  | PyVal.bool _ => true
  | _ => false

/-- `isinstance(v, dict)`. -/
def PyVal.isDict : PyVal → Bool
  | PyVal.dict _ => true
  | _ => false

/-- The underlying string of a value known to be a `str` (defaulting to `""`
elsewhere; only read after `isStr` has been established). -/
def PyVal.strVal : PyVal → String
  | PyVal.str s => s
  | _ => ""

/-- The integer value of a value known to be an `int` (Python's
`True == 1`, `False == 0`; only read after `isInt` has been established). -/
def PyVal.intVal : PyVal → Int
  | PyVal.int n => n
  | PyVal.bool b => if b then 1 else 0
  | _ => 0

/-- Python's `str.strip()`: drop leading and trailing whitespace. -/
def py_strip (s : String) : String :=
  String.mk (((s.toList.dropWhile Char.isWhitespace).reverse.dropWhile
    Char.isWhitespace).reverse)

/-- The exceptions of `exceptions.py` that the core raises:
`ValidationError(message)` and
`QueryExecutionError(message, table_name, operation, details)`, with
`details` as a string-to-string dictionary. -/
inductive MCPError where
  | validationError (message : String) : MCPError
  | queryExecutionError (message : String) (table_name : String)
      (operation : String) (details : List (String × String)) : MCPError

/-- `ResponseStatus` enum of `constants.py`. -/
inductive ResponseStatus where
  | success : ResponseStatus
  | error : ResponseStatus

/-- The enum member's string `.value`. -/
def ResponseStatus.value : ResponseStatus → String
  | ResponseStatus.success => "success"
  | ResponseStatus.error => "error"

/-- `utils.validate_table_name`: raises `ValidationError` when
`not table_name or not isinstance(table_name, str) or not table_name.strip()`.
The third disjunct is only reached for truthy strings, where it asks whether
the stripped string is empty. -/
def validate_table_name (table_name : PyVal) : Except MCPError Unit :=
  if !table_name.truthy || !table_name.isStr ||
      py_strip table_name.strVal == "" then
    Except.error (MCPError.validationError "Table name cannot be empty")
  else
    Except.ok ()

/-- `utils.validate_limit`: passes on `None`; otherwise raises unless the
value is an integer (`isinstance(limit, int)`) strictly greater than 0. -/
def validate_limit (limit : PyVal) : Except MCPError Unit :=
  match limit with
  | PyVal.none => Except.ok ()
  | l =>
    if !l.isInt then
      Except.error (MCPError.validationError "Limit must be a positive integer")
    else if l.intVal ≤ 0 then
      Except.error (MCPError.validationError "Limit must be a positive integer")
    else
      Except.ok ()

/-- `utils.validate_filters`: passes on `None`; raises
"Filters must be a dictionary" on a non-dict, and
"Filters dictionary cannot be empty" on an empty dict. -/
def validate_filters (filters : PyVal) : Except MCPError Unit :=
  match filters with
  | PyVal.none => Except.ok ()
  | PyVal.dict entries =>
    if entries.isEmpty then
      Except.error (MCPError.validationError "Filters dictionary cannot be empty")
    else
      Except.ok ()
  | _ => Except.error (MCPError.validationError "Filters must be a dictionary")

/-- `utils.validate_updates`: raises "Updates must be a dictionary" on a
non-dict (including `None`), and "Updates dictionary cannot be empty" on an
empty dict. -/
def validate_updates (updates : PyVal) : Except MCPError Unit :=
  match updates with
  | PyVal.dict entries =>
    if entries.isEmpty then
      Except.error (MCPError.validationError "Updates dictionary cannot be empty")
    else
      Except.ok ()
  | _ => Except.error (MCPError.validationError "Updates must be a dictionary")

/-- The `OperationResponse` envelope: `data`, `count`, `status`, `message`,
with `data` a nullable list of rows and `status` the status enum's string
value. -/
structure OperationResponse where
  data : Option (List PyVal)
  count : Nat
  status : String
  message : Option String

/-- `utils.create_response`: `count` is `len(data) if data else 0` (Python
truthiness: `None` and `[]` both give 0), `status` is the enum's `.value`,
`data` and `message` are passed through unchanged. -/
def create_response (data : Option (List PyVal)) (status : ResponseStatus)
    (message : Option String) : OperationResponse :=
  { data := data
    count :=
      match data with
      | Option.some xs => if xs.isEmpty then 0 else xs.length
      | Option.none => 0
    status := status.value
    message := message }

/-- The verb with which a chainable store query starts:
`select(columns)`, `insert(records)`, `update(updates)`, or `delete()`. -/
inductive QueryVerb where
  | select (columns : String) : QueryVerb
  | insert (records : PyVal) : QueryVerb
  | update (updates : PyVal) : QueryVerb
  | delete : QueryVerb

/-- The external client's chainable query builder, recorded symbolically:
the table, the verb, the equality constraints accumulated by `.eq` in
application order, and the optional `.order` and `.limit` modifiers. -/
structure Query where
  table : String
  verb : QueryVerb
  eqFilters : List (String × PyVal)
  orderBy : Option (PyVal × Bool)
  limitN : Option PyVal

/-- `query.eq(column, value)`: appends one equality constraint. -/
def Query.eq (q : Query) (column : String) (value : PyVal) : Query :=
  { q with eqFilters := q.eqFilters ++ [(column, value)] }

/-- `query.order(order_by, ascending=ascending)`. -/
def Query.order (q : Query) (column : PyVal) (ascending : Bool) : Query :=
  { q with orderBy := Option.some (column, ascending) }

/-- `query.limit(n)`. -/
def Query.limit (q : Query) (n : PyVal) : Query :=
  { q with limitN := Option.some n }

/-- `utils.apply_filters_to_query`: `if filters:` then one `query.eq` per
`filters.items()` entry, in iteration order; otherwise the query is returned
unchanged.  A truthy non-dict is outside the function's `Optional[Filters]`
annotation and never reaches it in this codebase (every call site validates
first); that branch returns the query unchanged. -/
def apply_filters_to_query (query : Query) (filters : PyVal) : Query :=
  if filters.truthy then
    match filters with
    | PyVal.dict entries =>
      entries.foldl (fun q cv => Query.eq q cv.1 cv.2) query
    | _ => query
  else
    query

/-- What the store's terminal `execute()` returns: an object whose `data`
attribute holds the resulting rows (nullable). -/
structure ExecResponse where
  data : Option (List PyVal)

/-- The behaviour of the external store on `execute()`: for each built query
either a response, or a raised exception carrying its `str(e)` message. -/
def Store : Type := Query → Except String ExecResponse

/-- `utils.safe_execute_query`: returns `query.execute()`, and re-raises any
exception as `QueryExecutionError` with message
`"Failed to execute {operation} on table '{table_name}': {str(e)}"` and
details `{"original_error": str(e)}`. -/
def safe_execute_query (store : Store) (query : Query) (operation : String)
    (table_name : String) : Except MCPError ExecResponse :=
  match store query with
  | Except.ok r => Except.ok r
  | Except.error e =>
    Except.error (MCPError.queryExecutionError
      ("Failed to execute " ++ operation ++ " on table '" ++ table_name
        ++ "': " ++ e)
      table_name operation [("original_error", e)])

/-- The repeated success test of `database.py`
(`response.data is not None and len(response.data) > 0`). -/
def data_nonempty : Option (List PyVal) → Bool
  | Option.some xs => !xs.isEmpty
  | Option.none => false

/-- `len(response.data or [])`. -/
def len_or_empty : Option (List PyVal) → Nat
  | Option.some xs => xs.length
  | Option.none => 0

/-- `DatabaseOperations.read_table_rows`: validates table name, limit and
filters; builds `client.table(table_name).select(columns)`; applies filters,
then `order` when `order_by` is truthy, then `limit` when `limit` is truthy;
executes through `safe_execute_query` with operation `"read"` and returns
`response.data`.  The second component is the list of executed queries. -/
def read_table_rows (store : Store) (table_name : PyVal) (columns : String)
    (filters : PyVal) (limit : PyVal) (order_by : PyVal) (ascending : Bool) :
    Except MCPError (Option (List PyVal)) × List Query :=
  match validate_table_name table_name with
  | Except.error e => (Except.error e, [])
  | Except.ok () =>
  match validate_limit limit with
  | Except.error e => (Except.error e, [])
  | Except.ok () =>
  match validate_filters filters with
  | Except.error e => (Except.error e, [])
  | Except.ok () =>
    let tname := table_name.strVal
    let query : Query :=
      { table := tname, verb := QueryVerb.select columns, eqFilters := [],
        orderBy := Option.none, limitN := Option.none }
    let query := apply_filters_to_query query filters
    let query := if order_by.truthy then Query.order query order_by ascending
      else query
    let query := if limit.truthy then Query.limit query limit else query
    match safe_execute_query store query "read" tname with
    | Except.error e => (Except.error e, [query])
    | Except.ok resp => (Except.ok resp.data, [query])

/-- `DatabaseOperations.create_table_records`: validates the table name,
then raises "Records cannot be empty" on falsy `records`; builds
`client.table(table_name).insert(records)`, executes with operation
`"create"`, and wraps `response.data` in the envelope: success iff the data
came back non-null and non-empty. -/
def create_table_records (store : Store) (table_name : PyVal)
    (records : PyVal) : Except MCPError OperationResponse × List Query :=
  match validate_table_name table_name with
  | Except.error e => (Except.error e, [])
  | Except.ok () =>
    if !records.truthy then
      (Except.error (MCPError.validationError "Records cannot be empty"), [])
    else
      let tname := table_name.strVal
      let query : Query :=
        { table := tname, verb := QueryVerb.insert records, eqFilters := [],
          orderBy := Option.none, limitN := Option.none }
      match safe_execute_query store query "create" tname with
      | Except.error e => (Except.error e, [query])
      | Except.ok resp =>
        let success := data_nonempty resp.data
        let status := if success then ResponseStatus.success
          else ResponseStatus.error
        (Except.ok (create_response resp.data status
          (Option.some (if success then
            "Created " ++ toString (len_or_empty resp.data) ++ " record(s)"
          else "No records were created"))), [query])

/-- `DatabaseOperations.update_table_records`: validates table name, updates
and filters; builds `client.table(table_name).update(updates)`, applies
filters, executes with operation `"update"`, and wraps the result. -/
def update_table_records (store : Store) (table_name : PyVal)
    (updates : PyVal) (filters : PyVal) :
    Except MCPError OperationResponse × List Query :=
  match validate_table_name table_name with
  | Except.error e => (Except.error e, [])
  | Except.ok () =>
  match validate_updates updates with
  | Except.error e => (Except.error e, [])
  | Except.ok () =>
  match validate_filters filters with
  | Except.error e => (Except.error e, [])
  | Except.ok () =>
    let tname := table_name.strVal
    let query : Query :=
      { table := tname, verb := QueryVerb.update updates, eqFilters := [],
        orderBy := Option.none, limitN := Option.none }
    let query := apply_filters_to_query query filters
    match safe_execute_query store query "update" tname with
    | Except.error e => (Except.error e, [query])
    | Except.ok resp =>
      let success := data_nonempty resp.data
      let status := if success then ResponseStatus.success
        else ResponseStatus.error
      (Except.ok (create_response resp.data status
        (Option.some (if success then
          "Updated " ++ toString (len_or_empty resp.data) ++ " record(s)"
        else "No records were updated"))), [query])

/-- `DatabaseOperations.delete_table_records`: validates table name and
filters; builds `client.table(table_name).delete()`, applies filters,
executes with operation `"delete"`, and wraps the result. -/
def delete_table_records (store : Store) (table_name : PyVal)
    (filters : PyVal) : Except MCPError OperationResponse × List Query :=
  match validate_table_name table_name with
  | Except.error e => (Except.error e, [])
  | Except.ok () =>
  match validate_filters filters with
  | Except.error e => (Except.error e, [])
  | Except.ok () =>
    let tname := table_name.strVal
    let query : Query :=
      { table := tname, verb := QueryVerb.delete, eqFilters := [],
        orderBy := Option.none, limitN := Option.none }
    let query := apply_filters_to_query query filters
    match safe_execute_query store query "delete" tname with
    | Except.error e => (Except.error e, [query])
    | Except.ok resp =>
      let success := data_nonempty resp.data
      let status := if success then ResponseStatus.success
        else ResponseStatus.error
      (Except.ok (create_response resp.data status
        (Option.some (if success then
          "Deleted " ++ toString (len_or_empty resp.data) ++ " record(s)"
        else "No records were deleted"))), [query])

/-- A store that answers every execute with one row (used by concrete
instantiations). -/
def demo_store_one : Store :=
  fun _ => Except.ok { data := Option.some [PyVal.dict [("id", PyVal.int 1)]] }

/-- A store that answers every execute with zero rows, without raising. -/
def demo_store_empty : Store :=
  fun _ => Except.ok { data := Option.some [] }

/-- A store whose execute always raises with message "Database error". -/
def demo_store_raise : Store :=
  fun _ => Except.error "Database error"

/-- Folding `Query.eq` over a list of entries appends exactly those entries,
in order, to the accumulated equality constraints, leaving every other part
of the query untouched. -/
theorem foldl_eq_appends (entries : List (String × PyVal)) (q : Query) :
    entries.foldl (fun q cv => Query.eq q cv.1 cv.2) q =
      ⟨q.table, q.verb, q.eqFilters ++ entries, q.orderBy, q.limitN⟩ := by
  induction entries generalizing q with
  | nil => cases q; simp
  | cons e rest ih =>
    rw [List.foldl_cons, ih]
    cases q
    simp [Query.eq]

/-- `data_nonempty` holds exactly on non-null, non-empty data. -/
theorem data_nonempty_iff (d : Option (List PyVal)) :
    data_nonempty d = true ↔ ∃ xs, d = Option.some xs ∧ xs ≠ [] := by
  cases d with
  | none => simp [data_nonempty]
  | some xs => cases xs <;> simp [data_nonempty]

/-- The status string of a wrapped mutation envelope is "success" exactly
when the data that was wrapped is non-null and non-empty. -/
theorem wrap_status_iff (d : Option (List PyVal)) (m : Option String) :
    ((create_response d
        (if data_nonempty d then ResponseStatus.success else ResponseStatus.error)
        m).status = "success" ↔
      ∃ xs, d = Option.some xs ∧ xs ≠ []) := by
  cases d with
  | none => simp [create_response, data_nonempty, ResponseStatus.value]
  | some xs => cases xs <;> simp [create_response, data_nonempty, ResponseStatus.value]

/-- C5: `validate_table_name` returns silently for every string that is
non-empty after stripping whitespace, and raises `ValidationError` with the
fixed message "Table name cannot be empty" for every string that strips to
empty (the empty and whitespace-only strings) and for every non-string
input, `None` included. -/
theorem C5_validate_table_name :
    (∀ s : String, py_strip s ≠ "" →
      validate_table_name (PyVal.str s) = Except.ok ()) ∧
    (∀ s : String, py_strip s = "" →
      validate_table_name (PyVal.str s) =
        Except.error (MCPError.validationError "Table name cannot be empty")) ∧
    (∀ v : PyVal, v.isStr = false →
      validate_table_name v =
        Except.error (MCPError.validationError "Table name cannot be empty")) := by
  refine ⟨fun s hs => ?_, fun s hs => ?_, fun v hv => ?_⟩
  · have hne : s ≠ "" := by
      intro h
      exact hs (by simp [h, py_strip])
    simp [validate_table_name, PyVal.truthy, PyVal.isStr, PyVal.strVal, hs, hne]
  · simp [validate_table_name, PyVal.truthy, PyVal.isStr, PyVal.strVal, hs]
  · cases v <;>
      simp_all [validate_table_name, PyVal.truthy, PyVal.isStr, PyVal.strVal]

/-- Witness for C5 at the concrete inputs "users", "   ", and `None`. -/
theorem C5_validate_table_name_witness :
    validate_table_name (PyVal.str "users") = Except.ok () ∧
    validate_table_name (PyVal.str "   ") =
      Except.error (MCPError.validationError "Table name cannot be empty") ∧
    validate_table_name PyVal.none =
      Except.error (MCPError.validationError "Table name cannot be empty") :=
  ⟨C5_validate_table_name.1 "users" (by decide),
   C5_validate_table_name.2.1 "   " (by decide),
   C5_validate_table_name.2.2 PyVal.none (by decide)⟩

/-- C6: `validate_limit` passes on `None` and on every integer strictly
greater than 0, and raises `ValidationError` "Limit must be a positive
integer" on every integer at most 0 and on every non-`None` value that is
not an integer. -/
theorem C6_validate_limit :
    validate_limit PyVal.none = Except.ok () ∧
    (∀ n : Int, 0 < n → validate_limit (PyVal.int n) = Except.ok ()) ∧
    (∀ n : Int, n ≤ 0 → validate_limit (PyVal.int n) =
      Except.error (MCPError.validationError "Limit must be a positive integer")) ∧
    (∀ v : PyVal, v.isInt = false → v ≠ PyVal.none → validate_limit v =
      Except.error (MCPError.validationError "Limit must be a positive integer")) := by
  refine ⟨rfl, fun n hn => ?_, fun n hn => ?_, fun v hv hvn => ?_⟩
  · simp [validate_limit, PyVal.isInt, PyVal.intVal, not_le.mpr hn]
  · simp [validate_limit, PyVal.isInt, PyVal.intVal, hn]
  · cases v <;> simp_all [validate_limit, PyVal.isInt]

/-- Witness for C6 at the concrete inputs 5, 0, and the string "10". -/
theorem C6_validate_limit_witness :
    validate_limit (PyVal.int 5) = Except.ok () ∧
    validate_limit (PyVal.int 0) =
      Except.error (MCPError.validationError "Limit must be a positive integer") ∧
    validate_limit (PyVal.str "10") =
      Except.error (MCPError.validationError "Limit must be a positive integer") :=
  ⟨C6_validate_limit.2.1 5 (by decide),
   C6_validate_limit.2.2.1 0 (by decide),
   C6_validate_limit.2.2.2 (PyVal.str "10") (by decide) (by simp)⟩

/-- C7: `create_response` passes `data` and `message` through unchanged,
sets `status` to the enum member's string value, and sets `count` to
`len(data)` when `data` is truthy (non-null and non-empty) and to 0
otherwise. -/
theorem C7_create_response (data : Option (List PyVal))
    (status : ResponseStatus) (message : Option String) :
    (create_response data status message).data = data ∧
    (create_response data status message).message = message ∧
    (create_response data status message).status = status.value ∧
    (∀ xs, data = Option.some xs → xs ≠ [] →
      (create_response data status message).count = xs.length) ∧
    ((data = Option.none ∨ data = Option.some []) →
      (create_response data status message).count = 0) := by
  refine ⟨rfl, rfl, rfl, fun xs hd hne => ?_, fun hd => ?_⟩
  · subst hd
    simp [create_response, hne]
  · rcases hd with hd | hd <;> subst hd <;> rfl

/-- Witness for C7 at concrete truthy data, empty data, and null data. -/
theorem C7_create_response_witness :
    (create_response (Option.some [PyVal.int 7]) ResponseStatus.success
      (Option.some "ok")).count = [PyVal.int 7].length ∧
    (create_response (Option.some []) ResponseStatus.error Option.none).count = 0 ∧
    (create_response Option.none ResponseStatus.error Option.none).count = 0 ∧
    (create_response Option.none ResponseStatus.error Option.none).status =
      ResponseStatus.error.value :=
  ⟨(C7_create_response (Option.some [PyVal.int 7]) ResponseStatus.success
      (Option.some "ok")).2.2.2.1 [PyVal.int 7] rfl (by simp),
   (C7_create_response (Option.some []) ResponseStatus.error
      Option.none).2.2.2.2 (Or.inr rfl),
   (C7_create_response Option.none ResponseStatus.error
      Option.none).2.2.2.2 (Or.inl rfl),
   (C7_create_response Option.none ResponseStatus.error Option.none).2.2.1⟩

/-- C10: `apply_filters_to_query` is the identity on the query when the
filters argument is `None` or the empty mapping: no equality constraint is
applied and the query comes back unchanged. -/
theorem C10_apply_filters_identity (q : Query) :
    apply_filters_to_query q PyVal.none = q ∧
    apply_filters_to_query q (PyVal.dict []) = q :=
  ⟨rfl, rfl⟩

/-- C8: for every non-empty filter mapping, query construction applies
exactly one equality constraint per entry, appended in iteration order and
all conjoined on the one query; in particular, read with a single-entry
filter map executes exactly one query carrying exactly that one equality
constraint. -/
theorem C8_filters_in_order (q : Query) (entries : List (String × PyVal))
    (hne : entries ≠ []) :
    apply_filters_to_query q (PyVal.dict entries) =
      ⟨q.table, q.verb, q.eqFilters ++ entries, q.orderBy, q.limitN⟩ ∧
    (∀ (store : Store) (s cols c : String) (v : PyVal) (asc : Bool),
      validate_table_name (PyVal.str s) = Except.ok () →
      (read_table_rows store (PyVal.str s) cols (PyVal.dict [(c, v)])
          PyVal.none PyVal.none asc).2 =
        [⟨s, QueryVerb.select cols, [(c, v)], Option.none, Option.none⟩]) := by
  constructor
  · cases entries with
    | nil => exact absurd rfl hne
    | cons e rest => exact foldl_eq_appends (e :: rest) q
  · intro store s cols c v asc ht
    simp [read_table_rows, ht, validate_limit, validate_filters,
      apply_filters_to_query, PyVal.truthy, PyVal.strVal,
      Query.eq]
    split <;> rfl

/-- Witness for C8 at a concrete query and the read scenario of the spec. -/
theorem C8_filters_in_order_witness :
    apply_filters_to_query
        ⟨"users", QueryVerb.select "*", [], Option.none, Option.none⟩
        (PyVal.dict [("active", PyVal.bool true)]) =
      ⟨"users", QueryVerb.select "*", [("active", PyVal.bool true)],
        Option.none, Option.none⟩ ∧
    (read_table_rows demo_store_one (PyVal.str "users") "*"
        (PyVal.dict [("active", PyVal.bool true)]) PyVal.none PyVal.none
        true).2 =
      [⟨"users", QueryVerb.select "*", [("active", PyVal.bool true)],
        Option.none, Option.none⟩] :=
  ⟨(C8_filters_in_order
      ⟨"users", QueryVerb.select "*", [], Option.none, Option.none⟩
      [("active", PyVal.bool true)] (by simp)).1,
   (C8_filters_in_order
      ⟨"users", QueryVerb.select "*", [], Option.none, Option.none⟩
      [("active", PyVal.bool true)] (by simp)).2
      demo_store_one "users" "*" "active" (PyVal.bool true) true rfl⟩

/-- C1 counterexample: with `filters=None`, `update_table_records` and
`delete_table_records` do not fail validation at all — `validate_filters`
passes on `None`, the operation proceeds, and exactly one (unfiltered)
query is executed.  This refutes the claim that absent filters fail
validation like an empty mapping with no query issued. -/
theorem C1_counterexample :
    (update_table_records demo_store_one (PyVal.str "users")
        (PyVal.dict [("name", PyVal.str "X")]) PyVal.none).1 =
      Except.ok ⟨Option.some [PyVal.dict [("id", PyVal.int 1)]], 1, "success",
        Option.some "Updated 1 record(s)"⟩ ∧
    (update_table_records demo_store_one (PyVal.str "users")
        (PyVal.dict [("name", PyVal.str "X")]) PyVal.none).2 =
      [⟨"users", QueryVerb.update (PyVal.dict [("name", PyVal.str "X")]), [],
        Option.none, Option.none⟩] ∧
    (delete_table_records demo_store_one (PyVal.str "users") PyVal.none).1 =
      Except.ok ⟨Option.some [PyVal.dict [("id", PyVal.int 1)]], 1, "success",
        Option.some "Deleted 1 record(s)"⟩ ∧
    (delete_table_records demo_store_one (PyVal.str "users") PyVal.none).2 =
      [⟨"users", QueryVerb.delete, [], Option.none, Option.none⟩] :=
  ⟨rfl, rfl, rfl, rfl⟩

/-- C1 as amended: an explicitly empty filter mapping fails validation with
`ValidationError` "Filters dictionary cannot be empty" and no query is
issued, for update and delete alike; but filters absent (`None`) passes
validation and the operation executes exactly one unfiltered query. -/
theorem C1_empty_filters_rejected (store : Store) (t u : PyVal)
    (ht : validate_table_name t = Except.ok ())
    (hu : validate_updates u = Except.ok ()) :
    (update_table_records store t u (PyVal.dict [])).1 =
      Except.error (MCPError.validationError "Filters dictionary cannot be empty") ∧
    (update_table_records store t u (PyVal.dict [])).2 = [] ∧
    (delete_table_records store t (PyVal.dict [])).1 =
      Except.error (MCPError.validationError "Filters dictionary cannot be empty") ∧
    (delete_table_records store t (PyVal.dict [])).2 = [] ∧
    (update_table_records store t u PyVal.none).2.length = 1 ∧
    (delete_table_records store t PyVal.none).2.length = 1 := by
  refine ⟨?_, ?_, ?_, ?_, ?_, ?_⟩ <;>
    simp [update_table_records, delete_table_records, ht, hu,
      validate_filters, apply_filters_to_query, PyVal.truthy] <;>
    split <;> rfl

/-- Witness for the amended C1 at concrete inputs. -/
theorem C1_empty_filters_rejected_witness :
    (update_table_records demo_store_one (PyVal.str "users")
        (PyVal.dict [("name", PyVal.str "X")]) (PyVal.dict [])).1 =
      Except.error (MCPError.validationError "Filters dictionary cannot be empty") ∧
    (update_table_records demo_store_one (PyVal.str "users")
        (PyVal.dict [("name", PyVal.str "X")]) (PyVal.dict [])).2 = [] ∧
    (delete_table_records demo_store_one (PyVal.str "users")
        (PyVal.dict [])).1 =
      Except.error (MCPError.validationError "Filters dictionary cannot be empty") ∧
    (delete_table_records demo_store_one (PyVal.str "users")
        (PyVal.dict [])).2 = [] ∧
    (update_table_records demo_store_one (PyVal.str "users")
        (PyVal.dict [("name", PyVal.str "X")]) PyVal.none).2.length = 1 ∧
    (delete_table_records demo_store_one (PyVal.str "users")
        PyVal.none).2.length = 1 :=
  C1_empty_filters_rejected demo_store_one (PyVal.str "users")
    (PyVal.dict [("name", PyVal.str "X")]) rfl rfl

/-- C9 counterexample: the empty-records rejection does not come first —
`validate_table_name` runs before the records check, so with an empty table
name and empty records the error raised is "Table name cannot be empty",
not "Records cannot be empty".  This refutes "regardless of the other
arguments". -/
theorem C9_counterexample :
    (create_table_records demo_store_one (PyVal.str "") (PyVal.dict [])).1 =
      Except.error (MCPError.validationError "Table name cannot be empty") :=
  rfl

/-- C9 as amended: once the table name validates, empty or null records are
rejected with `ValidationError` "Records cannot be empty" before any query
is executed; an invalid table name takes precedence and raises its own
error first. -/
theorem C9_records_rejected_after_table (store : Store) (t r : PyVal)
    (ht : validate_table_name t = Except.ok ())
    (hr : r.truthy = false) :
    (create_table_records store t r).1 =
      Except.error (MCPError.validationError "Records cannot be empty") ∧
    (create_table_records store t r).2 = [] ∧
    (∀ (t2 r2 : PyVal) (e : MCPError),
      validate_table_name t2 = Except.error e →
      (create_table_records store t2 r2).1 = Except.error e) := by
  refine ⟨?_, ?_, fun t2 r2 e he => ?_⟩
  · simp [create_table_records, ht, hr]
  · simp [create_table_records, ht, hr]
  · simp [create_table_records, he]

/-- Witness for the amended C9 at concrete inputs. -/
theorem C9_records_rejected_after_table_witness :
    (create_table_records demo_store_one (PyVal.str "users")
        (PyVal.dict [])).1 =
      Except.error (MCPError.validationError "Records cannot be empty") ∧
    (create_table_records demo_store_one (PyVal.str "users")
        (PyVal.dict [])).2 = [] ∧
    (∀ (t2 r2 : PyVal) (e : MCPError),
      validate_table_name t2 = Except.error e →
      (create_table_records demo_store_one t2 r2).1 = Except.error e) :=
  C9_records_rejected_after_table demo_store_one (PyVal.str "users")
    (PyVal.dict []) rfl rfl

/-- C3: for every operation (read/create/update/delete), when the external
client's execute raises with message `emsg`, the operation raises a
`QueryExecutionError` whose message is
"Failed to execute {operation} on table '{table_name}': {emsg}", carrying
the operation name, the table name, and the original error message under
"original_error" in its details; the original exception is never swallowed
(the error propagates) and the call is never retried (exactly one query is
executed). -/
theorem C3_execute_failure_wrapped (store : Store) (emsg : String)
    (hstore : ∀ q, store q = Except.error emsg)
    (s cols : String) (f lim ob u r : PyVal) (asc : Bool)
    (ht : validate_table_name (PyVal.str s) = Except.ok ())
    (hl : validate_limit lim = Except.ok ())
    (hf : validate_filters f = Except.ok ())
    (hu : validate_updates u = Except.ok ())
    (hr : r.truthy = true) :
    (read_table_rows store (PyVal.str s) cols f lim ob asc).1 =
      Except.error (MCPError.queryExecutionError
        ("Failed to execute read on table '" ++ s ++ "': " ++ emsg)
        s "read" [("original_error", emsg)]) ∧
    (read_table_rows store (PyVal.str s) cols f lim ob asc).2.length = 1 ∧
    (create_table_records store (PyVal.str s) r).1 =
      Except.error (MCPError.queryExecutionError
        ("Failed to execute create on table '" ++ s ++ "': " ++ emsg)
        s "create" [("original_error", emsg)]) ∧
    (create_table_records store (PyVal.str s) r).2.length = 1 ∧
    (update_table_records store (PyVal.str s) u f).1 =
      Except.error (MCPError.queryExecutionError
        ("Failed to execute update on table '" ++ s ++ "': " ++ emsg)
        s "update" [("original_error", emsg)]) ∧
    (update_table_records store (PyVal.str s) u f).2.length = 1 ∧
    (delete_table_records store (PyVal.str s) f).1 =
      Except.error (MCPError.queryExecutionError
        ("Failed to execute delete on table '" ++ s ++ "': " ++ emsg)
        s "delete" [("original_error", emsg)]) ∧
    (delete_table_records store (PyVal.str s) f).2.length = 1 := by
  refine ⟨?_, ?_, ?_, ?_, ?_, ?_, ?_, ?_⟩ <;>
    simp only [read_table_rows, create_table_records, update_table_records,
      delete_table_records, ht, hl, hf, hu, hr, Bool.not_true,
      Bool.false_eq_true, if_false, safe_execute_query, hstore,
      PyVal.strVal, List.length_cons, List.length_nil] <;>
    rfl

/-- Witness for C3: a store that raises "Database error" on execute, against
table "users", including the spec scenario for delete with filter id=999. -/
theorem C3_execute_failure_wrapped_witness :
    (read_table_rows demo_store_raise (PyVal.str "users") "*"
        (PyVal.dict [("id", PyVal.int 999)]) PyVal.none PyVal.none true).1 =
      Except.error (MCPError.queryExecutionError
        "Failed to execute read on table 'users': Database error"
        "users" "read" [("original_error", "Database error")]) ∧
    (read_table_rows demo_store_raise (PyVal.str "users") "*"
        (PyVal.dict [("id", PyVal.int 999)]) PyVal.none PyVal.none
        true).2.length = 1 ∧
    (create_table_records demo_store_raise (PyVal.str "users")
        (PyVal.dict [("name", PyVal.str "John")])).1 =
      Except.error (MCPError.queryExecutionError
        "Failed to execute create on table 'users': Database error"
        "users" "create" [("original_error", "Database error")]) ∧
    (create_table_records demo_store_raise (PyVal.str "users")
        (PyVal.dict [("name", PyVal.str "John")])).2.length = 1 ∧
    (update_table_records demo_store_raise (PyVal.str "users")
        (PyVal.dict [("name", PyVal.str "X")])
        (PyVal.dict [("id", PyVal.int 999)])).1 =
      Except.error (MCPError.queryExecutionError
        "Failed to execute update on table 'users': Database error"
        "users" "update" [("original_error", "Database error")]) ∧
    (update_table_records demo_store_raise (PyVal.str "users")
        (PyVal.dict [("name", PyVal.str "X")])
        (PyVal.dict [("id", PyVal.int 999)])).2.length = 1 ∧
    (delete_table_records demo_store_raise (PyVal.str "users")
        (PyVal.dict [("id", PyVal.int 999)])).1 =
      Except.error (MCPError.queryExecutionError
        "Failed to execute delete on table 'users': Database error"
        "users" "delete" [("original_error", "Database error")]) ∧
    (delete_table_records demo_store_raise (PyVal.str "users")
        (PyVal.dict [("id", PyVal.int 999)])).2.length = 1 :=
  C3_execute_failure_wrapped demo_store_raise "Database error" (fun _ => rfl)
    "users" "*" (PyVal.dict [("id", PyVal.int 999)]) PyVal.none PyVal.none
    (PyVal.dict [("name", PyVal.str "X")])
    (PyVal.dict [("name", PyVal.str "John")]) true rfl rfl rfl rfl rfl

/-- `safe_execute_query` never raises a `ValidationError`: its only error
outcome is a `QueryExecutionError`. -/
theorem safe_execute_no_validation (store : Store) (q : Query)
    (op tn m : String) :
    safe_execute_query store q op tn ≠
      Except.error (MCPError.validationError m) := by
  unfold safe_execute_query
  split <;> simp

/-- C4: validators run before any interaction with the external client —
whenever an operation's outcome is a `ValidationError`, the list of queries
executed against the store is empty, so the store's state is unchanged. -/
theorem C4_validation_before_execution (store : Store) (t : PyVal)
    (cols : String) (f lim ob u r : PyVal) (asc : Bool) (m : String) :
    ((read_table_rows store t cols f lim ob asc).1 =
        Except.error (MCPError.validationError m) →
      (read_table_rows store t cols f lim ob asc).2 = []) ∧
    ((create_table_records store t r).1 =
        Except.error (MCPError.validationError m) →
      (create_table_records store t r).2 = []) ∧
    ((update_table_records store t u f).1 =
        Except.error (MCPError.validationError m) →
      (update_table_records store t u f).2 = []) ∧
    ((delete_table_records store t f).1 =
        Except.error (MCPError.validationError m) →
      (delete_table_records store t f).2 = []) := by
  refine ⟨?_, ?_, ?_, ?_⟩ <;>
    · simp only [read_table_rows, create_table_records, update_table_records,
        delete_table_records]
      intro h
      repeat' split at h
      all_goals simp_all [safe_execute_no_validation]

/-- Witness for C4: with an empty table name (and empty filters for
update/delete) every operation fails validation and executes nothing. -/
theorem C4_validation_before_execution_witness :
    (read_table_rows demo_store_one (PyVal.str "") "*" (PyVal.dict [])
        PyVal.none PyVal.none true).2 = [] ∧
    (create_table_records demo_store_one (PyVal.str "")
        (PyVal.dict [("a", PyVal.int 1)])).2 = [] ∧
    (update_table_records demo_store_one (PyVal.str "")
        (PyVal.dict [("a", PyVal.int 1)]) (PyVal.dict [])).2 = [] ∧
    (delete_table_records demo_store_one (PyVal.str "")
        (PyVal.dict [])).2 = [] :=
  ⟨(C4_validation_before_execution demo_store_one (PyVal.str "") "*"
      (PyVal.dict []) PyVal.none PyVal.none (PyVal.dict [("a", PyVal.int 1)])
      (PyVal.dict [("a", PyVal.int 1)]) true
      "Table name cannot be empty").1 rfl,
   (C4_validation_before_execution demo_store_one (PyVal.str "") "*"
      (PyVal.dict []) PyVal.none PyVal.none (PyVal.dict [("a", PyVal.int 1)])
      (PyVal.dict [("a", PyVal.int 1)]) true
      "Table name cannot be empty").2.1 rfl,
   (C4_validation_before_execution demo_store_one (PyVal.str "") "*"
      (PyVal.dict []) PyVal.none PyVal.none (PyVal.dict [("a", PyVal.int 1)])
      (PyVal.dict [("a", PyVal.int 1)]) true
      "Table name cannot be empty").2.2.1 rfl,
   (C4_validation_before_execution demo_store_one (PyVal.str "") "*"
      (PyVal.dict []) PyVal.none PyVal.none (PyVal.dict [("a", PyVal.int 1)])
      (PyVal.dict [("a", PyVal.int 1)]) true
      "Table name cannot be empty").2.2.2 rfl⟩

/-- Every successful result of create wraps the store's data, with status
chosen by `data_nonempty`. -/
theorem create_ok_form (store : Store) (t r : PyVal)
    (resp : OperationResponse)
    (h : (create_table_records store t r).1 = Except.ok resp) :
    ∃ d m, resp = create_response d
      (if data_nonempty d then ResponseStatus.success else ResponseStatus.error)
      m := by
  simp only [create_table_records] at h
  repeat' split at h
  all_goals first
    | exact Except.noConfusion h
    | (rename_i hd
       rw [show resp = _ from (Except.ok.inj h).symm]
       exact ⟨_, _, by rw [if_pos hd]⟩)
    | (rename_i hd
       rw [show resp = _ from (Except.ok.inj h).symm]
       exact ⟨_, _, by rw [if_neg hd]⟩)

/-- Every successful result of update wraps the store's data, with status
chosen by `data_nonempty`. -/
theorem update_ok_form (store : Store) (t u f : PyVal)
    (resp : OperationResponse)
    (h : (update_table_records store t u f).1 = Except.ok resp) :
    ∃ d m, resp = create_response d
      (if data_nonempty d then ResponseStatus.success else ResponseStatus.error)
      m := by
  simp only [update_table_records] at h
  repeat' split at h
  all_goals first
    | exact Except.noConfusion h
    | (rename_i hd
       rw [show resp = _ from (Except.ok.inj h).symm]
       exact ⟨_, _, by rw [if_pos hd]⟩)
    | (rename_i hd
       rw [show resp = _ from (Except.ok.inj h).symm]
       exact ⟨_, _, by rw [if_neg hd]⟩)

/-- Every successful result of delete wraps the store's data, with status
chosen by `data_nonempty`. -/
theorem delete_ok_form (store : Store) (t f : PyVal)
    (resp : OperationResponse)
    (h : (delete_table_records store t f).1 = Except.ok resp) :
    ∃ d m, resp = create_response d
      (if data_nonempty d then ResponseStatus.success else ResponseStatus.error)
      m := by
  simp only [delete_table_records] at h
  repeat' split at h
  all_goals first
    | exact Except.noConfusion h
    | (rename_i hd
       rw [show resp = _ from (Except.ok.inj h).symm]
       exact ⟨_, _, by rw [if_pos hd]⟩)
    | (rename_i hd
       rw [show resp = _ from (Except.ok.inj h).symm]
       exact ⟨_, _, by rw [if_neg hd]⟩)

/-- C2: every envelope returned without an exception by create, update or
delete has status "success" iff its data is non-null and non-empty, and
otherwise status "error"; in particular, when the store returns zero rows
without raising, the operation returns (rather than throws) an envelope
with status "error", data `[]` and count 0. -/
theorem C2_status_data (store : Store) (t r u f : PyVal) :
    (∀ resp : OperationResponse,
      ((create_table_records store t r).1 = Except.ok resp ∨
       (update_table_records store t u f).1 = Except.ok resp ∨
       (delete_table_records store t f).1 = Except.ok resp) →
      ((resp.status = "success" ↔
          ∃ xs, resp.data = Option.some xs ∧ xs ≠ []) ∧
        (resp.status = "success" ∨ resp.status = "error"))) ∧
    ((∀ q, store q = Except.ok ⟨Option.some []⟩) →
      validate_table_name t = Except.ok () →
      r.truthy = true →
      validate_updates u = Except.ok () →
      validate_filters f = Except.ok () →
      (create_table_records store t r).1 =
        Except.ok ⟨Option.some [], 0, "error",
          Option.some "No records were created"⟩ ∧
      (update_table_records store t u f).1 =
        Except.ok ⟨Option.some [], 0, "error",
          Option.some "No records were updated"⟩ ∧
      (delete_table_records store t f).1 =
        Except.ok ⟨Option.some [], 0, "error",
          Option.some "No records were deleted"⟩) := by
  constructor
  · intro resp h
    have hform : ∃ d m, resp = create_response d
        (if data_nonempty d then ResponseStatus.success
          else ResponseStatus.error) m := by
      rcases h with h | h | h
      · exact create_ok_form store t r resp h
      · exact update_ok_form store t u f resp h
      · exact delete_ok_form store t f resp h
    obtain ⟨d, m, rfl⟩ := hform
    refine ⟨wrap_status_iff d m, ?_⟩
    cases hd : data_nonempty d <;>
      simp [create_response, ResponseStatus.value, hd]
  · intro hstore ht hr hu hf
    refine ⟨?_, ?_, ?_⟩ <;>
      simp [create_table_records, update_table_records, delete_table_records,
        ht, hr, hu, hf, safe_execute_query, hstore, data_nonempty,
        create_response, len_or_empty, ResponseStatus.value]

/-- Witness for C2: a store answering zero rows yields error envelopes with
empty data and count 0, without an exception, for all three mutations. -/
theorem C2_status_data_witness :
    (create_table_records demo_store_empty (PyVal.str "users")
        (PyVal.dict [("name", PyVal.str "John")])).1 =
      Except.ok ⟨Option.some [], 0, "error",
        Option.some "No records were created"⟩ ∧
    (update_table_records demo_store_empty (PyVal.str "users")
        (PyVal.dict [("name", PyVal.str "X")])
        (PyVal.dict [("id", PyVal.int 1)])).1 =
      Except.ok ⟨Option.some [], 0, "error",
        Option.some "No records were updated"⟩ ∧
    (delete_table_records demo_store_empty (PyVal.str "users")
        (PyVal.dict [("id", PyVal.int 1)])).1 =
      Except.ok ⟨Option.some [], 0, "error",
        Option.some "No records were deleted"⟩ :=
  (C2_status_data demo_store_empty (PyVal.str "users")
    (PyVal.dict [("name", PyVal.str "John")])
    (PyVal.dict [("name", PyVal.str "X")])
    (PyVal.dict [("id", PyVal.int 1)])).2 (fun _ => rfl) rfl rfl rfl rfl
